import Mathlib

/-!
Verification of the signal-detector core of the Industrial-SMS repository
(`src/hackrf_monitor/detector.h`).

The two detector variants (`sSignalDetector`, the current three-zone
profile, and `sSignalDetector_old`, the legacy shifted-peak profile) are
shallowly embedded here.  C `float`/`double` values are modelled as exact
rationals (`ℚ`); a C `int` is modelled as `ℤ`, a C float-to-int cast as
truncation toward zero (`cTrunc`), and C integer division by 2 as
`Int.tdiv`.  The caller-supplied power array is modelled as a total
function `ℤ → ℚ`; which indices a computation actually depends on is then
expressed observationally (two arrays agreeing on a range).  The two libm
calls `pow(10.0, ·)` and `log10` are kept abstract as function parameters
`exp10 log10 : ℚ → ℚ`, so every definition stays executable.

The C functions report results through pointer out-parameters that are
written only on some paths; the embedding returns `Option ℚ` for each
out-parameter, `none` meaning the pointer was left untouched.

In `ℚ` division by zero yields 0; every place where the C code could
actually divide by zero (denominators without an epsilon floor) is examined
explicitly in the theorems about claim C7.
-/

attribute [local semireducible] Rat.add Rat.mul Rat.sub Rat.inv

set_option maxRecDepth 40000

/-- Truncation toward zero, the semantics of a C cast from a floating
value to `int`. -/
def cTrunc (q : ℚ) : ℤ := Int.tdiv q.num (q.den : ℤ)

/-- Sum of `f (base + 0), …, f (base + (n-1))`: the accumulation pattern
`for(x = base; x < base + n; x++) acc += f(x);` used throughout
`detector.h`. -/
def bandSum (f : ℤ → ℚ) (base : ℤ) : ℕ → ℚ
  | 0 => 0
  | n+1 => bandSum f base n + f (base + n)

/-- Conditional sum of the samples strictly above a level, the pattern
`if(f(x) > lvl) { acc += f(x); }` over `x = base, …, base + n - 1`. -/
def aboveSumI (f : ℤ → ℚ) (base : ℤ) (lvl : ℚ) : ℕ → ℚ
  | 0 => 0
  | n+1 => aboveSumI f base lvl n + if lvl < f (base + n) then f (base + n) else 0

/-- Count (as a `ℚ`, since the C code keeps these counters in `float`
variables) of the samples strictly above a level. -/
def aboveCntI (f : ℤ → ℚ) (base : ℤ) (lvl : ℚ) : ℕ → ℚ
  | 0 => 0
  | n+1 => aboveCntI f base lvl n + if lvl < f (base + n) then 1 else 0

/-- Conditional sum of the samples strictly below a level. -/
def belowSumI (f : ℤ → ℚ) (base : ℤ) (lvl : ℚ) : ℕ → ℚ
  | 0 => 0
  | n+1 => belowSumI f base lvl n + if f (base + n) < lvl then f (base + n) else 0

/-- Count of the samples strictly below a level. -/
def belowCntI (f : ℤ → ℚ) (base : ℤ) (lvl : ℚ) : ℕ → ℚ
  | 0 => 0
  | n+1 => belowCntI f base lvl n + if f (base + n) < lvl then 1 else 0

/-- Index of the tested center frequency,
`int center_pos = (current_frequency_hz - frequency_start_hz) / frequency_step_hz;`
(detector.h line 43). -/
def centerPos (fs step fc : ℚ) : ℤ := cTrunc ((fc - fs) / step)

/-- Result of `sSignalDetector::apply_detector`.  `score` is the return
value; the three `Option` fields model the pointer out-parameters
`res_power`, `res_bw`, `res_centroid` (`none` = pointer not written on the
taken path, so the caller-supplied location keeps its previous value). -/
structure DetResult where
  score : ℚ
  res_power : Option ℚ
  res_bw : Option ℚ
  res_centroid : Option ℚ
deriving DecidableEq

/-- Configuration of the current three-zone detector profile
(detector.h lines 9-19).  The `char name[32]` field is non-functional
and omitted. -/
structure sSignalDetector where
  standard_min_frequency_MHz : ℚ
  standard_max_frequency_MHz : ℚ
  center_width_kHz : ℚ
  side_width_kHz : ℚ
  detection_threshold : ℚ
  bw_threshold : ℚ
deriving DecidableEq

namespace sSignalDetector

/-- `int center_width = center_width_kHz * 1000.0 / frequency_step_hz;`
(line 44). -/
def center_width (d : sSignalDetector) (step : ℚ) : ℤ :=
  cTrunc (d.center_width_kHz * 1000 / step)

/-- `int side_width = side_width_kHz * 1000.0 / frequency_step_hz;`
(line 45). -/
def side_width (d : sSignalDetector) (step : ℚ) : ℤ :=
  cTrunc (d.side_width_kHz * 1000 / step)

/-- `get_window_width_points` (lines 29-32): the minimum number of samples
the profile claims to need at a given frequency step. -/
def get_window_width_points (d : sSignalDetector) (step : ℚ) : ℤ :=
  cTrunc ((2 * d.side_width_kHz + d.center_width_kHz) * 1000 / step)

/-- `int left_begin = center_pos - center_width/2 - side_width;` (line 46). -/
def left_begin (d : sSignalDetector) (fs step fc : ℚ) : ℤ :=
  centerPos fs step fc - (d.center_width step).tdiv 2 - d.side_width step

/-- `int right_begin = center_pos + center_width/2 + side_width;` (line 47).
Note the `+ side_width` term: the right background band starts one full
side-band width to the right of the center band's end. -/
def right_begin (d : sSignalDetector) (fs step fc : ℚ) : ℤ :=
  centerPos fs step fc + (d.center_width step).tdiv 2 + d.side_width step

/-- `left_level`: mean of the `side_width` samples starting at
`left_begin` (lines 49-56). -/
def left_level (d : sSignalDetector) (arr : ℤ → ℚ) (fs step fc : ℚ) : ℚ :=
  bandSum arr (d.left_begin fs step fc) (d.side_width step).toNat /
    (d.side_width step : ℚ)

/-- `right_level`: mean of the `side_width` samples starting at
`right_begin` (lines 50-57). -/
def right_level (d : sSignalDetector) (arr : ℤ → ℚ) (fs step fc : ℚ) : ℚ :=
  bandSum arr (d.right_begin fs step fc) (d.side_width step).toNat /
    (d.side_width step : ℚ)

/-- `center_level`: mean of the `center_width` samples starting at
`center_pos - center_width/2` (lines 59-64). -/
def center_level (d : sSignalDetector) (arr : ℤ → ℚ) (fs step fc : ℚ) : ℚ :=
  bandSum arr (centerPos fs step fc - (d.center_width step).tdiv 2)
      (d.center_width step).toNat /
    (d.center_width step : ℚ)

/-- Number of iterations `1 + center_width/2` of the outward scans
(lines 77 and 102). -/
def scanN (d : sSignalDetector) (step : ℚ) : ℕ :=
  (1 + (d.center_width step).tdiv 2).toNat

/-- `left_z`: `0.000001` plus the number of scanned left-side samples
strictly above `center_level` (lines 75-91). -/
def left_z (d : sSignalDetector) (arr : ℤ → ℚ) (fs step fc : ℚ) : ℚ :=
  1/1000000 +
    aboveCntI (fun x => arr (centerPos fs step fc - x)) 0
      (d.center_level arr fs step fc) (d.scanN step)

/-- `right_z` (lines 76-91). -/
def right_z (d : sSignalDetector) (arr : ℤ → ℚ) (fs step fc : ℚ) : ℚ :=
  1/1000000 +
    aboveCntI (fun x => arr (centerPos fs step fc + x)) 0
      (d.center_level arr fs step fc) (d.scanN step)

/-- `left_signal`: exceedance average on the left scan,
`left_signal /= left_z` (lines 73-93). -/
def left_signal (d : sSignalDetector) (arr : ℤ → ℚ) (fs step fc : ℚ) : ℚ :=
  aboveSumI (fun x => arr (centerPos fs step fc - x)) 0
      (d.center_level arr fs step fc) (d.scanN step) /
    d.left_z arr fs step fc

/-- `right_signal` (lines 74-94). -/
def right_signal (d : sSignalDetector) (arr : ℤ → ℚ) (fs step fc : ℚ) : ℚ :=
  aboveSumI (fun x => arr (centerPos fs step fc + x)) 0
      (d.center_level arr fs step fc) (d.scanN step) /
    d.right_z arr fs step fc

/-- The stateful edge-search loop of lines 102-111 for one side.
`edgeScan get c thr n` is the value of the `*_signal_start` variable after
iterations `x = 0, …, n-1`, starting from `c`; `get x` is the sample read
at offset `x` from the center.  An iteration assigns `get`'s index
(translated to an absolute position by the caller through `pos`) only while
the variable still equals `c`.  Writing at `x = 0` assigns `c` itself, so
it keeps the variable at `c`, exactly as in the C code. -/
def edgeScan (get : ℕ → ℚ) (pos : ℕ → ℤ) (c : ℤ) (thr : ℚ) : ℕ → ℤ
  | 0 => c
  | x+1 =>
    if get x < thr ∧ edgeScan get pos c thr x = c then pos x
    else edgeScan get pos c thr x

/-- `left_signal_start` (lines 99-112): first left-scan position whose
sample drops below `0.7*left_signal + 0.3*left_level`, defaulting to
`center_pos - center_width/2`. -/
def left_signal_start (d : sSignalDetector) (arr : ℤ → ℚ) (fs step fc : ℚ) : ℤ :=
  let c := centerPos fs step fc
  let v := edgeScan (fun x => arr (c - x)) (fun x => c - x) c
    (7/10 * d.left_signal arr fs step fc + 3/10 * d.left_level arr fs step fc)
    (d.scanN step)
  if v = c then c - (d.center_width step).tdiv 2 else v

/-- `right_signal_start` (lines 100-113). -/
def right_signal_start (d : sSignalDetector) (arr : ℤ → ℚ) (fs step fc : ℚ) : ℤ :=
  let c := centerPos fs step fc
  let v := edgeScan (fun x => arr (c + x)) (fun x => c + x) c
    (7/10 * d.right_signal arr fs step fc + 3/10 * d.right_level arr fs step fc)
    (d.scanN step)
  if v = c then c + (d.center_width step).tdiv 2 else v

/-- Number of integration samples `right_signal_start - left_signal_start`
of the loop at line 118. -/
def integrN (d : sSignalDetector) (arr : ℤ → ℚ) (fs step fc : ℚ) : ℕ :=
  (d.right_signal_start arr fs step fc - d.left_signal_start arr fs step fc).toNat

/-- `pow_integr` (lines 115-122): `0.00000001` plus the sum of the linear
powers `pow(10.0, power_array[px] * 0.1)` over the edge-to-edge interval.
`exp10` models the libm call `pow(10.0, ·)`. -/
def pow_integr (exp10 : ℚ → ℚ) (d : sSignalDetector) (arr : ℤ → ℚ)
    (fs step fc : ℚ) : ℚ :=
  1/100000000 +
    bandSum (fun px => exp10 (arr px * (1/10)))
      (d.left_signal_start arr fs step fc) (d.integrN arr fs step fc)

/-- `pa_power_int` (lines 117-120): plain sum of the dB samples over the
edge-to-edge interval.  No epsilon seed in the source. -/
def pa_power_int (d : sSignalDetector) (arr : ℤ → ℚ) (fs step fc : ℚ) : ℚ :=
  bandSum arr (d.left_signal_start arr fs step fc) (d.integrN arr fs step fc)

/-- `freq_power_integr` (lines 116-124): sum of
`(frequency_start_hz + px * frequency_step_hz) * power_array[px]`. -/
def freq_power_integr (d : sSignalDetector) (arr : ℤ → ℚ) (fs step fc : ℚ) : ℚ :=
  bandSum (fun px => (fs + (px : ℚ) * step) * arr px)
    (d.left_signal_start arr fs step fc) (d.integrN arr fs step fc)

/-- `sSignalDetector::apply_detector` (lines 41-133), assembled from the
named intermediate quantities above in exactly the source's control flow:
(1) reject with `*res_power = 0; *res_bw = 0.0001; return 0;` when the
center mean is below a side mean (lines 66-71); (2) `return 0;` writing
nothing when a flank fails the threshold test (lines 96-97); (3) otherwise
integrate and return
`left_level/left_signal - 1 + right_level/right_signal - 1` (lines 115-132). -/
def apply_detector (exp10 log10 : ℚ → ℚ) (d : sSignalDetector) (arr : ℤ → ℚ)
    (fs step fc : ℚ) : DetResult :=
  if d.center_level arr fs step fc < d.left_level arr fs step fc ∨
      d.center_level arr fs step fc < d.right_level arr fs step fc then
    ⟨0, some 0, some (1/10000), none⟩
  else if d.left_signal arr fs step fc <
      d.left_level arr fs step fc + d.detection_threshold then
    ⟨0, none, none, none⟩
  else if d.right_signal arr fs step fc <
      d.right_level arr fs step fc + d.detection_threshold then
    ⟨0, none, none, none⟩
  else
    ⟨d.left_level arr fs step fc / d.left_signal arr fs step fc - 1 +
        d.right_level arr fs step fc / d.right_signal arr fs step fc - 1,
      some (10 * log10 (d.pow_integr exp10 arr fs step fc)),
      some (((d.right_signal_start arr fs step fc -
          d.left_signal_start arr fs step fc : ℤ) : ℚ) * step),
      some (d.freq_power_integr arr fs step fc / d.pa_power_int arr fs step fc)⟩

end sSignalDetector

/-- Replace only the `detection_threshold` field, keeping every other
profile field; used to state the monotonic-threshold claim C9. -/
def setThreshold (d : sSignalDetector) (t : ℚ) : sSignalDetector :=
  ⟨d.standard_min_frequency_MHz, d.standard_max_frequency_MHz,
    d.center_width_kHz, d.side_width_kHz, t, d.bw_threshold⟩

/-- Result of `sSignalDetector_old::process_data`: the C function returns
the float `-1` on the explicit window-too-small path (line 226) and an
ordinarily computed score otherwise; the two control paths are kept
distinct here.  `ok score power bw` carries the return value and the two
pointer out-parameters (both always written on the computing path). -/
inductive OldResult where
  | notApplicable : OldResult
  | ok (score power bw : ℚ) : OldResult
deriving DecidableEq

/-- Configuration of the legacy shifted-peak detector profile
(detector.h lines 143-173).  The non-functional `char name[32]` field is
omitted; the C `int single_peak` is used only as a boolean. -/
structure sSignalDetector_old where
  standard_min_frequency_MHz : ℚ
  standard_max_frequency_MHz : ℚ
  single_peak : Bool
  center_width_kHz : ℚ
  left_shift_kHz : ℚ
  left_width_kHz : ℚ
  right_shift_kHz : ℚ
  right_width_kHz : ℚ
  left_relative_power : ℚ
  right_relative_power : ℚ
deriving DecidableEq

namespace sSignalDetector_old

/-- `int center_width = center_width_kHz * 1000.0 / frequency_step_hz;`
(line 219). -/
def center_width (d : sSignalDetector_old) (step : ℚ) : ℤ :=
  cTrunc (d.center_width_kHz * 1000 / step)

/-- `int left_width = left_width_kHz * 1000.0 / frequency_step_hz;`
(line 220). -/
def left_width (d : sSignalDetector_old) (step : ℚ) : ℤ :=
  cTrunc (d.left_width_kHz * 1000 / step)

/-- `int right_width = right_width_kHz * 1000.0 / frequency_step_hz;`
(line 221). -/
def right_width (d : sSignalDetector_old) (step : ℚ) : ℤ :=
  cTrunc (d.right_width_kHz * 1000 / step)

/-- Legacy `get_window_width_points` (lines 183-186): shifts plus widths
scaled by the 2.1 margin, converted to points. -/
def get_window_width_points (d : sSignalDetector_old) (step : ℚ) : ℤ :=
  cTrunc ((d.left_shift_kHz + (21/10) * d.left_width_kHz +
      d.right_shift_kHz + (21/10) * d.right_width_kHz) * 1000 / step)

/-- `center_freq` at the window midpoint `length/2` (lines 211-212). -/
def center_freq (fs step : ℚ) (len : ℤ) : ℚ :=
  fs + step * ((Int.tdiv len 2 : ℤ) : ℚ)

/-- `left_pos` (lines 213-216). -/
def left_pos (d : sSignalDetector_old) (fs step : ℚ) (len : ℤ) : ℤ :=
  cTrunc ((center_freq fs step len - d.left_shift_kHz * 1000 - fs) / step)

/-- `right_pos` (lines 214-217). -/
def right_pos (d : sSignalDetector_old) (fs step : ℚ) (len : ℤ) : ℤ :=
  cTrunc ((center_freq fs step len + d.right_shift_kHz * 1000 - fs) / step)

/-- The explicit bounds check of line 223:
`left_pos - 2*left_width < 0 || right_pos + 2*right_width >= length ||
center_width*2.1 > length`.  Note the side windows are checked with a 2x
margin while only the center width is compared against the window using
the 2.1 factor. -/
def window_too_small (d : sSignalDetector_old) (fs step : ℚ) (len : ℤ) : Prop :=
  d.left_pos fs step len - 2 * d.left_width step < 0 ∨
  len ≤ d.right_pos fs step len + 2 * d.right_width step ∨
  (len : ℚ) < (d.center_width step : ℚ) * (21/10)

instance (d : sSignalDetector_old) (fs step : ℚ) (len : ℤ) :
    Decidable (d.window_too_small fs step len) := by
  unfold window_too_small
  infer_instance

/-- State of the smoothed downward walk of lines 381-389 when the current
index is `x` (counted down to 0) and the running average is `lvl`:
returns the final `left_edge`.  Entered only with `x ≥ 1`; when the loop
runs out (`x = 0` reached) the last assigned edge was 1. -/
def emaDownGo (arr : ℤ → ℚ) (thr : ℚ) : ℕ → ℚ → ℤ
  | 0, _ => 1
  | x+1, lvl =>
    if lvl * (9/10) + (1/10) * arr (x+1 : ℕ) < thr then ((x+1 : ℕ) : ℤ)
    else emaDownGo arr thr x (lvl * (9/10) + (1/10) * arr (x+1 : ℕ))

/-- State of the smoothed upward walk of lines 390-398 at index `x` with
`fuel` indices left before `length`: returns the final `right_edge`. -/
def emaUpGo (arr : ℤ → ℚ) (thr : ℚ) : ℕ → ℤ → ℚ → ℤ
  | 0, x, _ => x - 1
  | fuel+1, x, lvl =>
    if lvl * (9/10) + (1/10) * arr x < thr then x
    else emaUpGo arr thr fuel (x + 1) (lvl * (9/10) + (1/10) * arr x)

/-- `sSignalDetector_old::process_data` (lines 195-404).  The whole-window
statistics of lines 197-209 (`range_average`, `range_low_average`) are
computed by the source but never used afterwards, and the two-stage
`center_power_high_high` of lines 339-347 is likewise dead; both are
omitted here since they contribute to no output.  The `printf` on the
failure path is I/O only.  All other computations are translated
directly; divisions whose C denominators have no epsilon floor
(`left_power_highZ`, `right_power_highZ`, `center_power_highZ`) are plain
`ℚ` divisions here (0 when the count is 0, where C would produce NaN). -/
def process_data (d : sSignalDetector_old) (arr : ℤ → ℚ) (fs step : ℚ)
    (len : ℤ) : OldResult :=
  if d.window_too_small fs step len then .notApplicable
  else
    let center_pos := Int.tdiv len 2
    let lp := d.left_pos fs step len
    let rp := d.right_pos fs step len
    let cw := d.center_width step
    let lw := d.left_width step
    let rw := d.right_width step
    let n1 := (lp - lw).toNat
    let base2 := rp + rw
    let n2 := (len - base2).toNat
    let out_z := 1/100000000 + (n1 : ℚ) + (n2 : ℚ)
    let sum_left := bandSum arr 0 n1
    let sum_right := bandSum arr base2 n2
    let out_average := (sum_left + sum_right) / out_z
    let out_low_z := 1/100000000 + belowCntI arr 0 out_average n1 +
      belowCntI arr base2 out_average n2
    let out_low_average :=
      (belowSumI arr 0 out_average n1 + belowSumI arr base2 out_average n2) /
        out_low_z
    let left_power :=
      if d.single_peak then 0
      else bandSum arr (lp - lw) (2 * lw).toNat / ((2 * lw : ℤ) : ℚ)
    let left_power_high :=
      if d.single_peak then 0
      else aboveSumI arr (lp - lw) left_power (2 * lw).toNat /
        aboveCntI arr (lp - lw) left_power (2 * lw).toNat
    let right_power :=
      if d.single_peak then 0
      else bandSum arr (rp - rw) (2 * rw).toNat / ((2 * rw : ℤ) : ℚ)
    let right_power_high :=
      if d.single_peak then 0
      else aboveSumI arr (rp - rw) right_power (2 * rw).toNat /
        aboveCntI arr (rp - rw) right_power (2 * rw).toNat
    let center_power :=
      bandSum arr (center_pos - cw) (2 * cw).toNat / ((2 * cw : ℤ) : ℚ)
    let center_power_high :=
      aboveSumI arr (center_pos - cw) center_power (2 * cw).toNat /
        aboveCntI arr (center_pos - cw) center_power (2 * cw).toNat
    let center_to_background := center_power_high - out_low_average
    let left_to_background := left_power_high - out_low_average
    let right_to_background := right_power_high - out_low_average
    let rel_left1 :=
      1 - |d.left_relative_power - left_to_background / center_to_background|
    let rel_right1 :=
      1 - |d.right_relative_power - right_to_background / center_to_background|
    let rel_left := if rel_left1 < 1/100 then 1/100 else rel_left1
    let rel_right := if rel_right1 < 1/100 then 1/100 else rel_right1
    let detected_score :=
      if d.single_peak then center_to_background
      else center_to_background * rel_left * rel_right
    let min6 := d.standard_min_frequency_MHz * 1000000
    let max6 := d.standard_max_frequency_MHz * 1000000
    let cf := center_freq fs step len
    let pen1 := if cf < min6 then cf / min6 else 1
    let pen := if max6 < cf then max6 / cf else pen1
    let thrL := (left_power + out_average) * (1/2)
    let thrR := (right_power + out_average) * (1/2)
    let left_edge := if 0 < lp then emaDownGo arr thrL lp.toNat (arr lp) else lp
    let right_edge :=
      if rp < len then emaUpGo arr thrR (len - rp).toNat rp (arr rp) else rp
    let res_bw := (fs + step * (right_edge : ℚ)) - (fs + step * (left_edge : ℚ))
    .ok (detected_score * pen) center_power res_bw

end sSignalDetector_old

/-- Trivial stand-in for the abstract `pow(10.0, ·)`/`log10` parameters in
concrete evaluations whose outcome does not depend on them. -/
def constZero : ℚ → ℚ := fun _ => 0

/-- Constant-one function, a positive-valued stand-in for `pow(10.0, ·)`. -/
def constOne : ℚ → ℚ := fun _ => 1

/-- Example profile: center band 4 kHz, side bands 2 kHz, threshold 10 dB.
At a 1000 Hz step this gives `center_width = 4`, `side_width = 2`,
`get_window_width_points = 8`. -/
def sdEx : sSignalDetector := ⟨0, 100000, 4, 2, 10, 0⟩

/-- The same geometry with `detection_threshold = 1`. -/
def sdT1 : sSignalDetector := setThreshold sdEx 1

/-- Flat window at -10 dB. -/
def flatTen : ℤ → ℚ := fun _ => -10

/-- Flat window at -5 dB. -/
def flatNeg : ℤ → ℚ := fun _ => -5

/-- Flat window at 0 dB. -/
def flatZero : ℤ → ℚ := fun _ => 0

/-- Flat window at 5 dB. -/
def flatFive : ℤ → ℚ := fun _ => 5

/-- Window with a dip over the center band tested at index 10. -/
def arrDip : ℤ → ℚ := fun i => if 8 ≤ i ∧ i ≤ 11 then -5 else 0

/-- All-negative-dB window with a peak at index 10: -20 dB at the peak,
-40 dB over the rest of the center band and the scan range, -80 dB
background. -/
def arrNeg : ℤ → ℚ :=
  fun i => if i = 10 then -20 else if 8 ≤ i ∧ i ≤ 12 then -40 else -80

/-- Positive-dB window with a peak at index 10 over a 10 dB background. -/
def arrPos : ℤ → ℚ :=
  fun i => if i = 10 then 40 else if 8 ≤ i ∧ i ≤ 12 then 20 else 10

/-- Window that is zero everywhere except at index 8, the first index past
the minimal window `[0, 7]` of `sdEx` at a 1000 Hz step. -/
def arrB : ℤ → ℚ := fun i => if i = 8 then 100 else 0

/-- Window whose samples are 1 on indices 12-13 (the `side_width` samples
immediately right of the center band when testing index 10 with `sdEx`)
and 2 on indices 14-15 (the samples `right_begin` actually reads). -/
def arrC : ℤ → ℚ :=
  fun i => if 12 ≤ i ∧ i ≤ 13 then 1 else if 14 ≤ i ∧ i ≤ 15 then 2 else 0

/-- Example legacy profile: single peak, 4 kHz center width, 10 kHz
shifts, 10 kHz side widths.  At a 1000 Hz step its
`get_window_width_points` is 62. -/
def oldEx : sSignalDetector_old := ⟨0, 100000, true, 4, 10, 10, 10, 10, 1, 1⟩


/-! Helper lemmas about the loop-accumulation functions. -/

theorem bandSum_const (f : ℤ → ℚ) (v : ℚ) (h : ∀ i, f i = v) (base : ℤ) :
    ∀ n : ℕ, bandSum f base n = (n : ℚ) * v := by
  intro n
  induction n with
  | zero => simp [bandSum]
  | succ n ih =>
    rw [bandSum, ih, h]
    push_cast
    ring

theorem aboveSumI_self (f : ℤ → ℚ) (v : ℚ) (h : ∀ i, f i = v) (base : ℤ) :
    ∀ n : ℕ, aboveSumI f base v n = 0 := by
  intro n
  induction n with
  | zero => rfl
  | succ n ih =>
    rw [aboveSumI, ih, h]
    simp

theorem aboveCntI_nonneg (f : ℤ → ℚ) (base : ℤ) (lvl : ℚ) :
    ∀ n : ℕ, 0 ≤ aboveCntI f base lvl n := by
  intro n
  induction n with
  | zero => exact le_refl 0
  | succ n ih =>
    rw [aboveCntI]
    split
    · linarith
    · linarith

theorem bandSum_nonneg (f : ℤ → ℚ) (base : ℤ) (h : ∀ i, 0 ≤ f i) :
    ∀ n : ℕ, 0 ≤ bandSum f base n := by
  intro n
  induction n with
  | zero => exact le_refl 0
  | succ n ih =>
    rw [bandSum]
    have := h (base + n)
    linarith

/-- The mean of `w` samples of a constant-`v` array is `v` (for a positive
sample count). -/
theorem flat_mean (arr : ℤ → ℚ) (v : ℚ) (h : ∀ i, arr i = v) (base : ℤ)
    (w : ℤ) (hw : 1 ≤ w) : bandSum arr base w.toNat / (w : ℚ) = v := by
  rw [bandSum_const arr v h base w.toNat]
  have h0 : (0:ℤ) ≤ w := le_trans zero_le_one hw
  have h1 : ((w.toNat : ℕ) : ℚ) = (w : ℚ) := by
    have h2 := Int.toNat_of_nonneg h0
    exact_mod_cast congrArg (fun z : ℤ => (z : ℚ)) h2
  rw [h1]
  have h2 : (w : ℚ) ≠ 0 := by
    have h3 : (1:ℚ) ≤ (w:ℚ) := by exact_mod_cast hw
    linarith
  exact mul_div_cancel_left₀ v h2

/-! Projections of `setThreshold` leave all the geometric quantities of the
three-zone detector unchanged. -/

theorem setThreshold_threshold (d : sSignalDetector) (t : ℚ) :
    (setThreshold d t).detection_threshold = t := rfl

theorem setThreshold_left_level (d : sSignalDetector) (t : ℚ) (arr : ℤ → ℚ)
    (fs step fc : ℚ) :
    (setThreshold d t).left_level arr fs step fc = d.left_level arr fs step fc := rfl

theorem setThreshold_right_level (d : sSignalDetector) (t : ℚ) (arr : ℤ → ℚ)
    (fs step fc : ℚ) :
    (setThreshold d t).right_level arr fs step fc = d.right_level arr fs step fc := rfl

theorem setThreshold_center_level (d : sSignalDetector) (t : ℚ) (arr : ℤ → ℚ)
    (fs step fc : ℚ) :
    (setThreshold d t).center_level arr fs step fc = d.center_level arr fs step fc := rfl

theorem setThreshold_left_signal (d : sSignalDetector) (t : ℚ) (arr : ℤ → ℚ)
    (fs step fc : ℚ) :
    (setThreshold d t).left_signal arr fs step fc = d.left_signal arr fs step fc := rfl

theorem setThreshold_right_signal (d : sSignalDetector) (t : ℚ) (arr : ℤ → ℚ)
    (fs step fc : ℚ) :
    (setThreshold d t).right_signal arr fs step fc = d.right_signal arr fs step fc := rfl

/-! Theorems settling the claims. -/

/-- C1 (code divergence): with the example profile (`center_width = 4`,
`side_width = 2`) tested at index 10, the left background mean is taken
over indices 6-7, exactly the `side_width` samples immediately left of the
center band, as the claim states; but the right background mean equals 2,
the value of the samples at indices 14-15, not the mean 1 of the samples
at indices 12-13 that the claim designates (the `side_width` samples
immediately right of the center band).  `right_begin` adds an extra
`side_width`, so the right band is read one side-band width too far
right. -/
theorem C1_right_band_offset :
    sdEx.left_level arrC 0 1000 10000 = bandSum arrC 6 2 / 2 ∧
    sdEx.right_level arrC 0 1000 10000 = 2 ∧
    bandSum arrC 12 2 / 2 = 1 := by decide

/-- C2 (code divergence): for the example profile at a 1000 Hz step the
minimal window is `get_window_width_points = 8`; testing the frequency
whose index is the window midpoint `8/2 = 4`, two windows that agree on
every index `0 … 7` (the whole minimal window) still give different
`right_level` values and different `apply_detector` results, because the
computation reads indices 8 and 9, outside `[0, length-1]`. -/
theorem C2_minimal_window_reads_out_of_bounds :
    sdEx.get_window_width_points 1000 = 8 ∧
    centerPos 0 1000 4000 = Int.tdiv (sdEx.get_window_width_points 1000) 2 ∧
    (∀ i ∈ Finset.Icc (0:ℤ) (sdEx.get_window_width_points 1000 - 1),
      flatZero i = arrB i) ∧
    sdEx.right_level flatZero 0 1000 4000 ≠ sdEx.right_level arrB 0 1000 4000 ∧
    sdEx.apply_detector constZero constZero flatZero 0 1000 4000 ≠
      sdEx.apply_detector constZero constZero arrB 0 1000 4000 := by decide

/-- C3 (counterexample): a window that is flat at -10 dB with
`detection_threshold = 1 > 0` does not get score 0: the flank test
compares `left_signal = 0` (no sample exceeds the center level, and the
epsilon-floored average of nothing is 0) against
`left_level + threshold = -9`, so `0 < -9` is false on both flanks and the
detector proceeds to the scoring path instead of rejecting. -/
theorem C3_flat_window_nonzero_score :
    0 < sdT1.detection_threshold ∧
    (sdT1.apply_detector constZero constZero flatTen 0 1000 10000).score ≠ 0 := by
  decide

/-- C3 (amended): for every profile whose derived band widths are at least
one sample, every positive threshold, and every flat window whose common
level `v` satisfies `-detection_threshold < v`, the three-zone detector
returns score 0. -/
theorem C3_flat_window_score_zero (exp10 log10 : ℚ → ℚ) (d : sSignalDetector)
    (arr : ℤ → ℚ) (fs step fc v : ℚ) (hflat : ∀ i, arr i = v)
    (_ht : 0 < d.detection_threshold) (hv : -d.detection_threshold < v)
    (hsw : 1 ≤ d.side_width step) (hcw : 1 ≤ d.center_width step) :
    (d.apply_detector exp10 log10 arr fs step fc).score = 0 := by
  have hll : d.left_level arr fs step fc = v := flat_mean arr v hflat _ _ hsw
  have hrl : d.right_level arr fs step fc = v := flat_mean arr v hflat _ _ hsw
  have hcl : d.center_level arr fs step fc = v := flat_mean arr v hflat _ _ hcw
  have hls : d.left_signal arr fs step fc = 0 := by
    unfold sSignalDetector.left_signal
    rw [hcl, aboveSumI_self _ v (fun i => hflat _) _ _, zero_div]
  have hcond : ¬(d.center_level arr fs step fc < d.left_level arr fs step fc ∨
      d.center_level arr fs step fc < d.right_level arr fs step fc) := by
    rw [hcl, hll, hrl]
    simp
  have hflank : d.left_signal arr fs step fc <
      d.left_level arr fs step fc + d.detection_threshold := by
    rw [hls, hll]
    linarith
  unfold sSignalDetector.apply_detector
  rw [if_neg hcond, if_pos hflank]

/-- C4 (counterexample): on an all-negative-dB window the detector reports
a detection (`res_power` is written) with a strictly positive score: the
score terms `left_level/left_signal - 1` are positive because both level
and signal are negative with `|left_level| > |left_signal|`, so the
claimed "each term is ≤ 0, the score is never positive" fails. -/
theorem C4_positive_score_on_detection :
    (sdEx.apply_detector constZero constZero arrNeg 0 1000 10000).res_power.isSome
      = true ∧
    0 < (sdEx.apply_detector constZero constZero arrNeg 0 1000 10000).score := by
  decide

/-- C4 (amended): on the detection path the returned score is exactly
`left_level/left_signal - 1 + right_level/right_signal - 1`, and under the
additional premises that the threshold is nonnegative and both exceedance
averages are positive, each term is ≤ 0 and the score is ≤ 0. -/
theorem C4_detection_score_formula (exp10 log10 : ℚ → ℚ) (d : sSignalDetector)
    (arr : ℤ → ℚ) (fs step fc : ℚ)
    (hc : ¬(d.center_level arr fs step fc < d.left_level arr fs step fc ∨
      d.center_level arr fs step fc < d.right_level arr fs step fc))
    (hl : ¬(d.left_signal arr fs step fc <
      d.left_level arr fs step fc + d.detection_threshold))
    (hr : ¬(d.right_signal arr fs step fc <
      d.right_level arr fs step fc + d.detection_threshold)) :
    (d.apply_detector exp10 log10 arr fs step fc).score =
      d.left_level arr fs step fc / d.left_signal arr fs step fc - 1 +
      d.right_level arr fs step fc / d.right_signal arr fs step fc - 1 ∧
    (0 ≤ d.detection_threshold → 0 < d.left_signal arr fs step fc →
      0 < d.right_signal arr fs step fc →
      (d.apply_detector exp10 log10 arr fs step fc).score ≤ 0) := by
  have hres : (d.apply_detector exp10 log10 arr fs step fc).score =
      d.left_level arr fs step fc / d.left_signal arr fs step fc - 1 +
      d.right_level arr fs step fc / d.right_signal arr fs step fc - 1 := by
    unfold sSignalDetector.apply_detector
    rw [if_neg hc, if_neg hl, if_neg hr]
  refine ⟨hres, ?_⟩
  intro hts hlp hrp
  rw [hres]
  push_neg at hl hr
  have h1 : d.left_level arr fs step fc ≤ d.left_signal arr fs step fc := by
    linarith
  have h2 : d.right_level arr fs step fc ≤ d.right_signal arr fs step fc := by
    linarith
  have t1 : d.left_level arr fs step fc / d.left_signal arr fs step fc ≤ 1 :=
    (div_le_one hlp).mpr h1
  have t2 : d.right_level arr fs step fc / d.right_signal arr fs step fc ≤ 1 :=
    (div_le_one hrp).mpr h2
  linarith

/-- C5: whenever the center mean is below either side mean, the detector
returns score 0 and writes `*res_power = 0` and `*res_bw = 0.0001`
(leaving `res_centroid` untouched), exactly as lines 66-71 do. -/
theorem C5_center_reject_outputs (exp10 log10 : ℚ → ℚ) (d : sSignalDetector)
    (arr : ℤ → ℚ) (fs step fc : ℚ)
    (hc : d.center_level arr fs step fc < d.left_level arr fs step fc ∨
      d.center_level arr fs step fc < d.right_level arr fs step fc) :
    d.apply_detector exp10 log10 arr fs step fc =
      ⟨0, some 0, some (1/10000), none⟩ := by
  unfold sSignalDetector.apply_detector
  rw [if_pos hc]

/-- C6 (counterexample): the example legacy profile needs
`get_window_width_points(1000 Hz) = 62` samples, yet on a window of only
61 samples `process_data` passes its bounds check (which uses a 2x margin
on the side windows, not the 2.1x of the sizing helper) and computes an
ordinary score instead of returning the not-applicable value. -/
theorem C6_short_window_computes_score :
    61 < oldEx.get_window_width_points 1000 ∧
    oldEx.process_data flatFive 0 1000 61 ≠ OldResult.notApplicable := by decide

/-- C6 (amended): `process_data` returns the not-applicable value exactly
when `left_pos - 2*left_width < 0`, or `right_pos + 2*right_width ≥
length`, or `center_width * 2.1 > length` — a 2x margin on the shifted
side windows plus a separate 2.1x check on the center width only.  This
check is decided purely by the geometry (before any sample influences the
outcome), and some windows shorter than `get_window_width_points` pass it
and get a computed score. -/
theorem C6_not_applicable_iff (d : sSignalDetector_old) (arr : ℤ → ℚ)
    (fs step : ℚ) (len : ℤ) :
    d.process_data arr fs step len = OldResult.notApplicable ↔
      d.window_too_small fs step len := by
  unfold sSignalDetector_old.process_data
  by_cases h : d.window_too_small fs step len
  · simp [h]
  · simp [h]

/-- C7 (counterexample): the flat window at -10 dB with threshold 1 is
well formed (every index of the unbounded model window is defined), the
detector reaches the integration/scoring path (`res_bw` is written), and
the score's left denominator `left_signal` is exactly 0 there — a division
whose denominator carries no epsilon floor and is zero. -/
theorem C7_zero_denominator_reached :
    (sdT1.apply_detector constZero constZero flatTen 0 1000 10000).res_bw.isSome
      = true ∧
    sdT1.left_signal flatTen 0 1000 10000 = 0 := by decide

/-- C7 (amended): the epsilon-floored quantities of `apply_detector` are
positive on every input: the exceedance-count denominators `left_z` and
`right_z` are at least `0.000001`, and — whenever the `pow(10.0,·)` model
is positive-valued, as the real function is — the integrated linear power
fed to `log10` is at least `0.00000001`.  (The score denominators
`left_signal`/`right_signal` and the centroid denominator `pa_power_int`
carry no such floor; the companion counterexample shows one reaching 0.) -/
theorem C7_floored_denominators_pos (exp10 : ℚ → ℚ) (d : sSignalDetector)
    (arr : ℤ → ℚ) (fs step fc : ℚ) (hpos : ∀ y : ℚ, 0 < exp10 y) :
    0 < d.left_z arr fs step fc ∧ 0 < d.right_z arr fs step fc ∧
    0 < d.pow_integr exp10 arr fs step fc := by
  refine ⟨?_, ?_, ?_⟩
  · unfold sSignalDetector.left_z
    have h := aboveCntI_nonneg (fun x => arr (centerPos fs step fc - x)) 0
      (d.center_level arr fs step fc) (d.scanN step)
    linarith
  · unfold sSignalDetector.right_z
    have h := aboveCntI_nonneg (fun x => arr (centerPos fs step fc + x)) 0
      (d.center_level arr fs step fc) (d.scanN step)
    linarith
  · unfold sSignalDetector.pow_integr
    have h := bandSum_nonneg (fun px => exp10 (arr px * (1/10)))
      (d.left_signal_start arr fs step fc)
      (fun i => le_of_lt (hpos (arr i * (1/10))))
      (d.integrN arr fs step fc)
    linarith

/-- C8: on the detection path the detector writes
`*res_power = 10*log10(1e-8 + Σ pow(10, sample/10))`,
`*res_bw = (right_signal_start - left_signal_start) * frequency_step`, and
`*res_centroid = (Σ frequency*sample) / (Σ sample)` over the edge-to-edge
interval — the centroid weights are the raw dB samples, not linear
powers. -/
theorem C8_detection_outputs (exp10 log10 : ℚ → ℚ) (d : sSignalDetector)
    (arr : ℤ → ℚ) (fs step fc : ℚ)
    (hc : ¬(d.center_level arr fs step fc < d.left_level arr fs step fc ∨
      d.center_level arr fs step fc < d.right_level arr fs step fc))
    (hl : ¬(d.left_signal arr fs step fc <
      d.left_level arr fs step fc + d.detection_threshold))
    (hr : ¬(d.right_signal arr fs step fc <
      d.right_level arr fs step fc + d.detection_threshold)) :
    (d.apply_detector exp10 log10 arr fs step fc).res_power =
      some (10 * log10 (1/100000000 +
        bandSum (fun px => exp10 (arr px * (1/10)))
          (d.left_signal_start arr fs step fc) (d.integrN arr fs step fc))) ∧
    (d.apply_detector exp10 log10 arr fs step fc).res_bw =
      some (((d.right_signal_start arr fs step fc -
        d.left_signal_start arr fs step fc : ℤ) : ℚ) * step) ∧
    (d.apply_detector exp10 log10 arr fs step fc).res_centroid =
      some (bandSum (fun px => (fs + (px : ℚ) * step) * arr px)
          (d.left_signal_start arr fs step fc) (d.integrN arr fs step fc) /
        bandSum arr (d.left_signal_start arr fs step fc)
          (d.integrN arr fs step fc)) := by
  unfold sSignalDetector.apply_detector
  rw [if_neg hc, if_neg hl, if_neg hr]
  exact ⟨rfl, rfl, rfl⟩

/-- C9: for a fixed window, raising `detection_threshold` can only turn
scores into 0, never a 0 score into a positive one: the threshold enters
only the two flank rejection tests, and the detection-path score does not
depend on it. -/
theorem C9_threshold_monotone (exp10 log10 : ℚ → ℚ) (d : sSignalDetector)
    (arr : ℤ → ℚ) (fs step fc t1 t2 : ℚ) (h12 : t1 < t2)
    (h0 : ((setThreshold d t1).apply_detector exp10 log10 arr fs step fc).score
      = 0) :
    ¬ 0 < ((setThreshold d t2).apply_detector exp10 log10 arr fs step fc).score := by
  unfold sSignalDetector.apply_detector at h0 ⊢
  simp only [setThreshold_left_level, setThreshold_right_level,
    setThreshold_center_level, setThreshold_left_signal,
    setThreshold_right_signal, setThreshold_threshold] at h0 ⊢
  by_cases hc : d.center_level arr fs step fc < d.left_level arr fs step fc ∨
      d.center_level arr fs step fc < d.right_level arr fs step fc
  · rw [if_pos hc]
    exact lt_irrefl 0
  · rw [if_neg hc] at h0 ⊢
    by_cases hl2 : d.left_signal arr fs step fc <
        d.left_level arr fs step fc + t2
    · rw [if_pos hl2]
      exact lt_irrefl 0
    · rw [if_neg hl2]
      by_cases hr2 : d.right_signal arr fs step fc <
          d.right_level arr fs step fc + t2
      · rw [if_pos hr2]
        exact lt_irrefl 0
      · rw [if_neg hr2]
        push_neg at hl2 hr2
        have hl1 : ¬ d.left_signal arr fs step fc <
            d.left_level arr fs step fc + t1 := by
          push_neg
          linarith
        have hr1 : ¬ d.right_signal arr fs step fc <
            d.right_level arr fs step fc + t1 := by
          push_neg
          linarith
        rw [if_neg hl1, if_neg hr1] at h0
        rw [h0]
        exact lt_irrefl 0

/-- C10: when the center test passes but a flank fails the threshold test,
the detector returns score 0 having written none of the three
out-parameters (`res_power`, `res_bw`, `res_centroid` all keep their
previous values), in contrast to the center rejection of C5 which writes
power 0 and bandwidth 0.0001. -/
theorem C10_flank_reject_no_write (exp10 log10 : ℚ → ℚ) (d : sSignalDetector)
    (arr : ℤ → ℚ) (fs step fc : ℚ)
    (hc : ¬(d.center_level arr fs step fc < d.left_level arr fs step fc ∨
      d.center_level arr fs step fc < d.right_level arr fs step fc))
    (hfl : d.left_signal arr fs step fc <
        d.left_level arr fs step fc + d.detection_threshold ∨
      d.right_signal arr fs step fc <
        d.right_level arr fs step fc + d.detection_threshold) :
    d.apply_detector exp10 log10 arr fs step fc = ⟨0, none, none, none⟩ := by
  unfold sSignalDetector.apply_detector
  rw [if_neg hc]
  rcases hfl with h | h
  · rw [if_pos h]
  · by_cases hl : d.left_signal arr fs step fc <
        d.left_level arr fs step fc + d.detection_threshold
    · rw [if_pos hl]
    · rw [if_neg hl, if_pos h]

/-! Concrete witnesses instantiating the hypotheses of the theorems above. -/

/-- Witness for C3 (amended): the flat -5 dB window with the threshold-10
profile satisfies every hypothesis and gets score 0. -/
theorem C3_flat_window_score_zero_witness :
    0 < sdEx.detection_threshold ∧ -sdEx.detection_threshold < -5 ∧
    1 ≤ sdEx.side_width 1000 ∧ 1 ≤ sdEx.center_width 1000 ∧
    (sdEx.apply_detector constZero constZero flatNeg 0 1000 10000).score = 0 :=
  ⟨by decide, by decide, by decide, by decide,
    C3_flat_window_score_zero constZero constZero sdEx flatNeg 0 1000 10000 (-5)
      (fun i => rfl) (by decide) (by decide) (by decide) (by decide)⟩

/-- Witness for C4 (amended): the positive-dB peaked window takes the
detection path and its score is ≤ 0 there. -/
theorem C4_detection_score_formula_witness :
    ¬(sdEx.center_level arrPos 0 1000 10000 <
        sdEx.left_level arrPos 0 1000 10000 ∨
      sdEx.center_level arrPos 0 1000 10000 <
        sdEx.right_level arrPos 0 1000 10000) ∧
    ¬(sdEx.left_signal arrPos 0 1000 10000 <
      sdEx.left_level arrPos 0 1000 10000 + sdEx.detection_threshold) ∧
    ¬(sdEx.right_signal arrPos 0 1000 10000 <
      sdEx.right_level arrPos 0 1000 10000 + sdEx.detection_threshold) ∧
    (sdEx.apply_detector constZero constZero arrPos 0 1000 10000).score ≤ 0 :=
  ⟨by decide, by decide, by decide,
    (C4_detection_score_formula constZero constZero sdEx arrPos 0 1000 10000
      (by decide) (by decide) (by decide)).2 (by decide) (by decide) (by decide)⟩

/-- Witness for C5: the dipped window fails the center test and produces
exactly the score-0/power-0/bandwidth-0.0001 result. -/
theorem C5_center_reject_outputs_witness :
    (sdEx.center_level arrDip 0 1000 10000 <
        sdEx.left_level arrDip 0 1000 10000 ∨
      sdEx.center_level arrDip 0 1000 10000 <
        sdEx.right_level arrDip 0 1000 10000) ∧
    sdEx.apply_detector constZero constZero arrDip 0 1000 10000 =
      ⟨0, some 0, some (1/10000), none⟩ :=
  ⟨Or.inl (by decide),
    C5_center_reject_outputs constZero constZero sdEx arrDip 0 1000 10000
      (Or.inl (by decide))⟩

/-- Witness for C7 (amended), instantiated with the positive constant-one
model of `pow(10.0, ·)`. -/
theorem C7_floored_denominators_pos_witness :
    0 < sdEx.left_z flatZero 0 1000 10000 ∧
    0 < sdEx.right_z flatZero 0 1000 10000 ∧
    0 < sdEx.pow_integr constOne flatZero 0 1000 10000 :=
  C7_floored_denominators_pos constOne sdEx flatZero 0 1000 10000
    (fun _ => one_pos)

/-- Witness for C8: on the detection path of the positive-dB peaked window
the written bandwidth is the edge distance times the frequency step. -/
theorem C8_detection_outputs_witness :
    (sdEx.apply_detector constOne constZero arrPos 0 1000 10000).res_bw =
      some (((sdEx.right_signal_start arrPos 0 1000 10000 -
        sdEx.left_signal_start arrPos 0 1000 10000 : ℤ) : ℚ) * 1000) :=
  (C8_detection_outputs constOne constZero sdEx arrPos 0 1000 10000
    (by decide) (by decide) (by decide)).2.1

/-- Witness for C9: on the flat 0 dB window, threshold 1 gives score 0 and
raising the threshold to 2 does not produce a positive score. -/
theorem C9_threshold_monotone_witness :
    (1:ℚ) < 2 ∧
    ((setThreshold sdEx 1).apply_detector constZero constZero flatZero
      0 1000 10000).score = 0 ∧
    ¬ 0 < ((setThreshold sdEx 2).apply_detector constZero constZero flatZero
      0 1000 10000).score :=
  ⟨by decide, by decide,
    C9_threshold_monotone constZero constZero sdEx flatZero 0 1000 10000 1 2
      (by decide) (by decide)⟩

/-- Witness for C10: the flat 0 dB window with threshold 10 passes the
center test, fails the left flank test, and returns with all three
out-parameters unwritten. -/
theorem C10_flank_reject_no_write_witness :
    ¬(sdEx.center_level flatZero 0 1000 10000 <
        sdEx.left_level flatZero 0 1000 10000 ∨
      sdEx.center_level flatZero 0 1000 10000 <
        sdEx.right_level flatZero 0 1000 10000) ∧
    (sdEx.left_signal flatZero 0 1000 10000 <
        sdEx.left_level flatZero 0 1000 10000 + sdEx.detection_threshold ∨
      sdEx.right_signal flatZero 0 1000 10000 <
        sdEx.right_level flatZero 0 1000 10000 + sdEx.detection_threshold) ∧
    sdEx.apply_detector constZero constZero flatZero 0 1000 10000 =
      ⟨0, none, none, none⟩ :=
  ⟨by decide, Or.inl (by decide),
    C10_flank_reject_no_write constZero constZero sdEx flatZero 0 1000 10000
      (by decide) (Or.inl (by decide))⟩
